import Mathlib

/-!
Verification of the basis-trade backtest core of the crypto-data-prep
repository: the expiry calendar (src/crypto_data/utils/expiry.py), the
signal generator and backtest engine (src/crypto_data/backtest/engine.py)
and the grid-search optimizer (scripts/optimize_signals.py).

Modelling conventions:
* Python floats are embedded as exact rationals (ℚ).
* Python datetimes are embedded at day granularity: a date is its rata-die
  day number (an integer, 1970-01-01 = day 0); `(a - b).days` becomes
  integer subtraction.  Calendar dates given as year/month/day triples are
  converted by `toRD` below, a standard civil-calendar formula; the source
  relies on Python's `datetime` for this arithmetic, so `toRD`/`daysInMonth`
  model the `datetime` library itself.
* Python code that raises on some input (e.g. `historical_data[0]` of an
  empty list) is embedded with `Option`; `none` models the raised exception.
* Python truthiness tests on floats/None (`if self.realized_pnl:`) are
  embedded as the corresponding "is not none and not zero" tests.
* Lists that the Python code appends to are accumulated most-recent-first
  (cons) and reversed where the final order matters.
-/

/-! ## Calendar model (Python `datetime` day arithmetic) -/

/-- Gregorian leap-year rule, as implemented by Python's `datetime`. -/
def isLeap (y : ℤ) : Bool :=
  decide (y % 4 = 0 ∧ (¬ y % 100 = 0 ∨ y % 400 = 0))

/-- Length in days of month `m` of year `y` (Python `datetime` calendar). -/
def daysInMonth (y m : ℤ) : ℤ :=
  if m = 1 then 31
  else if m = 2 then (if isLeap y then 29 else 28)
  else if m = 3 then 31
  else if m = 4 then 30
  else if m = 5 then 31
  else if m = 6 then 30
  else if m = 7 then 31
  else if m = 8 then 31
  else if m = 9 then 30
  else if m = 10 then 31
  else if m = 11 then 30
  else 31

/-- Rata-die day number of the calendar date `y-m-d`, with 1970-01-01 = 0.
Standard civil-from-date formula (shifted year starting in March); `/` and
`%` on ℤ are Euclidean, which for the positive divisors used here agrees
with Python's floor division. -/
def toRD (y m d : ℤ) : ℤ :=
  let ys := if m ≤ 2 then y - 1 else y
  let mp := (m + 9) % 12
  let doy := (153 * mp + 2) / 5 + (d - 1)
  365 * ys + ys / 4 - ys / 100 + ys / 400 + doy - 719468

/-- Python `date.weekday()` (Monday = 0) of a rata-die day number;
day 0 = 1970-01-01 was a Thursday (3). -/
def weekday (rd : ℤ) : ℤ := (rd + 3) % 7

/-- The first day of the month after `(y, m)`, mirroring the source's
`datetime(year+1, 1, 1) if month == 12 else datetime(year, month+1, 1)`. -/
def nextMonth (y m : ℤ) : ℤ × ℤ :=
  if m = 12 then (y + 1, 1) else (y, m + 1)

/-- Embedding of `get_last_friday_of_month` (expiry.py): last day of the
month, then step back `(weekday - 4) % 7` days.  Returns a rata-die day. -/
def get_last_friday_of_month (y m : ℤ) : ℤ :=
  let last_day := toRD (nextMonth y m).1 (nextMonth y m).2 1 - 1
  let days_back := (weekday last_day - 4) % 7
  last_day - days_back

/-- Linear index of a calendar month, used to compare months. -/
def monthIdx (y m : ℤ) : ℤ := 12 * y + m - 1

/-- The month-iteration loop of `generate_expiry_schedule`: starting from
month `(y, m)`, append `get_last_friday_of_month` while the first of the
month is ≤ `endBuf`, then advance to the next month.  The structural `fuel`
argument bounds the iteration count; every caller passes fuel that is at
least `endBuf + 1 - toRD y m 1`, which the lemmas below show is enough for
the recursion to stop on the date condition, exactly like the source's
`while` loop. -/
def scheduleMonths (endBuf : ℤ) : ℕ → ℤ → ℤ → List ℤ
  | 0, _, _ => []
  | fuel + 1, y, m =>
    if toRD y m 1 ≤ endBuf then
      get_last_friday_of_month y m ::
        scheduleMonths endBuf fuel (nextMonth y m).1 (nextMonth y m).2
    else []

/-- Embedding of `generate_expiry_schedule(start_date, end_date)`
(expiry.py): iterate months from `start_date.replace(day=1)` while
`current <= end_date + 60 days`, collecting last Fridays, then
`sorted(list(set(...)))` (here: `dedup` then `mergeSort`). -/
def generate_expiry_schedule (ys ms ds ye me de : ℤ) : List ℤ :=
  let endBuf := toRD ye me de + 60
  let fuel := (endBuf + 1 - toRD ys ms 1).toNat
  ((scheduleMonths endBuf fuel ys ms).dedup).mergeSort (fun a b => decide (a ≤ b))

/-- Embedding of `get_front_month_expiry(date, expiry_schedule)`
(expiry.py): first schedule entry `≥ date`, else the last entry; `none`
models the `IndexError` of `expiry_schedule[-1]` on an empty schedule. -/
def get_front_month_expiry (d : ℤ) (sched : List ℤ) : Option ℤ :=
  match sched.find? (fun e => decide (d ≤ e)) with
  | some e => some e
  | none => sched.getLast?

/-- Validity of a year/month/day triple as a Python `datetime` date
(day granularity). -/
def YmdValid (y m d : ℤ) : Prop :=
  1 ≤ m ∧ m ≤ 12 ∧ 1 ≤ d ∧ d ≤ daysInMonth y m

instance (y m d : ℤ) : Decidable (YmdValid y m d) := by
  unfold YmdValid; infer_instance

/-! ## Backtest engine model (engine.py) -/

/-- Trading signals (`Signal` enum in engine.py). -/
inductive Signal where
  | strongEntry
  | acceptableEntry
  | partialExit
  | fullExit
  | stopLoss
  | noEntry
deriving DecidableEq

/-- The `Trade` dataclass of engine.py.  `exit_*` and `realized_pnl` are
`None` until the trade is closed; dates are rata-die day numbers. -/
structure Trade where
  entry_date : ℤ
  entry_spot : ℚ
  entry_futures : ℚ
  entry_basis : ℚ
  exit_date : Option ℤ := none
  exit_spot : Option ℚ := none
  exit_futures : Option ℚ := none
  exit_basis : Option ℚ := none
  position_size : ℚ := 1
  funding_cost : ℚ := 0
  realized_pnl : Option ℚ := none
  status : String := "open"

/-- The `holding_days` property: `(exit_date - entry_date).days` when the
trade is closed, `0` while open. -/
def Trade.holding_days (t : Trade) : ℤ :=
  match t.exit_date with
  | some e => e - t.entry_date
  | none => 0

/-- The `return_pct` property.  The source guards with Python truthiness
(`if self.realized_pnl:`), so a realized P&L of exactly 0 yields `None`,
not 0. -/
def Trade.return_pct (t : Trade) : Option ℚ :=
  match t.realized_pnl with
  | some p => if p = 0 then none else some (p / (t.entry_spot * t.position_size))
  | none => none

/-- The `annualized_return` property.  The source guards with
`if self.return_pct and self.holding_days > 0:` (truthiness again). -/
def Trade.annualized_return (t : Trade) : Option ℚ :=
  match t.return_pct with
  | some r =>
    if ¬ r = 0 ∧ 0 < t.holding_days then
      some (r * (365 / (t.holding_days : ℚ)))
    else none
  | none => none

/-- The `BacktestResult` dataclass with its field defaults.  The Sharpe
ratio `(mean/stdev)·√365` is irrational in general, so the field stores the
data determining it: `none` for the default 0 (guard failed), otherwise
`some (mean, sample variance)` of the per-trade returns with variance > 0;
the source's float value is `mean/√variance · √365`. -/
structure BacktestResult where
  trades : List Trade := []
  total_return : ℚ := 0
  total_trades : ℕ := 0
  winning_trades : ℕ := 0
  losing_trades : ℕ := 0
  avg_win : ℚ := 0
  avg_loss : ℚ := 0
  max_drawdown : ℚ := 0
  sharpe : Option (ℚ × ℚ) := none
  start_date : Option ℤ := none
  end_date : Option ℤ := none
  initial_capital : ℚ := 200000

/-- The configuration object built by scripts/optimize_signals.py: exactly
the five attributes it sets.  The engine's constructor reads
`account_size`, `funding_cost_annual` and (absent here, so defaulted)
`min_monthly_basis` via `getattr`. -/
structure Config where
  account_size : ℚ
  funding_cost_annual : ℚ
  entry_threshold : ℚ
  stop_loss_threshold : ℚ
  exit_threshold : ℚ

/-- The state the `Backtester.__init__` constructor keeps on `self`. -/
structure Backtester where
  account_size : ℚ
  funding_cost_annual : ℚ
  min_monthly_basis : ℚ

/-- Embedding of `Backtester.__init__(config)`: `getattr` reads with
defaults 200000 / 0.05 / 0.005; a `Config` (the optimizer's shape) always
carries the first two and never carries `min_monthly_basis`, so that one
always takes its default. -/
def Backtester.init (cfg : Config) : Backtester :=
  { account_size := cfg.account_size
    funding_cost_annual := cfg.funding_cost_annual
    min_monthly_basis := 0.005 }

/-- The `days_to_expiry <= 0` coercion at the top of `generate_signal`. -/
def coerceDte (days_to_expiry : ℤ) : ℤ :=
  if days_to_expiry ≤ 0 then 1 else days_to_expiry

/-- `basis_pct = (futures_price - spot_price) / spot_price`. -/
def basisPct (spot_price futures_price : ℚ) : ℚ :=
  (futures_price - spot_price) / spot_price

/-- `monthly_basis = basis_pct * (30 / days_to_expiry)` after coercion. -/
def monthlyBasis (spot_price futures_price : ℚ) (days_to_expiry : ℤ) : ℚ :=
  basisPct spot_price futures_price * (30 / (coerceDte days_to_expiry : ℚ))

/-- Embedding of `Backtester.generate_signal` (engine.py lines 154-192).
The method reads nothing from `self`; all five cut-offs are hard-coded
literals in the source. -/
def generate_signal (spot_price futures_price : ℚ) (days_to_expiry : ℤ) : Signal :=
  if basisPct spot_price futures_price < 0 then Signal.stopLoss
  else if monthlyBasis spot_price futures_price days_to_expiry < 0.002 then Signal.stopLoss
  else if 0.035 < monthlyBasis spot_price futures_price days_to_expiry then Signal.fullExit
  else if 0.025 < monthlyBasis spot_price futures_price days_to_expiry then Signal.partialExit
  else if 0.01 < monthlyBasis spot_price futures_price days_to_expiry then Signal.strongEntry
  else if 0.005 < monthlyBasis spot_price futures_price days_to_expiry then Signal.acceptableEntry
  else Signal.noEntry

/-- `spot_pnl = (exit_spot - entry_spot) * position_size`. -/
def spotPnl (entry_spot exit_spot size : ℚ) : ℚ := (exit_spot - entry_spot) * size

/-- `futures_pnl = (entry_futures - exit_futures) * position_size`
(long spot / short futures). -/
def futuresPnl (entry_futures exit_futures size : ℚ) : ℚ :=
  (entry_futures - exit_futures) * size

/-- `funding_cost = (funding_cost_annual / 365) * holding_days_actual *
(entry_spot * position_size)`. -/
def fundingCost (funding_cost_annual : ℚ) (holding_days_actual : ℤ)
    (entry_spot size : ℚ) : ℚ :=
  funding_cost_annual / 365 * (holding_days_actual : ℚ) * (entry_spot * size)

/-- The realized P&L formula of the close logic (engine.py lines 326-343
and 377-391): `spot_pnl + futures_pnl - funding_cost`. -/
def tradePnl (bt : Backtester) (t : Trade) (exit_date : ℤ)
    (exit_spot exit_futures : ℚ) : ℚ :=
  spotPnl t.entry_spot exit_spot t.position_size
    + futuresPnl t.entry_futures exit_futures t.position_size
    - fundingCost bt.funding_cost_annual (exit_date - t.entry_date) t.entry_spot t.position_size

/-- Shared exit-field / P&L assignment of the two close sites.  Neither
close site writes the `funding_cost` field (the source computes funding in
a local variable only) and only the in-loop close sets `exit_basis`. -/
def settleTrade (bt : Backtester) (t : Trade) (exit_date : ℤ)
    (exit_spot exit_futures : ℚ) (status : String) : Trade :=
  { t with
    exit_date := some exit_date
    exit_spot := some exit_spot
    exit_futures := some exit_futures
    status := status
    realized_pnl := some (tradePnl bt t exit_date exit_spot exit_futures) }

/-- One daily observation handed to the engine: `date`, `spot_price`,
`futures_price`, `futures_expiry` (dates as rata-die day numbers). -/
structure Obs where
  date : ℤ
  spot_price : ℚ
  futures_price : ℚ
  futures_expiry : ℤ

/-- Mutable loop state of `run_backtest`: the open trade, the equity curve
and realized-return list (both most-recent-first), and the closed trades
(most-recent-first). -/
structure RunState where
  current_trade : Option Trade
  equity : List ℚ
  daily_returns : List ℚ
  trades : List Trade

/-- Loop state before the first observation:
`equity_curve = [initial_capital]`, nothing else. -/
def initState (bt : Backtester) : RunState :=
  { current_trade := none, equity := [bt.account_size], daily_returns := [], trades := [] }

/-- The in-loop close (engine.py lines 318-356): set exit fields including
`exit_basis`, compute P&L, append `prev_equity + realized_pnl` to the
equity curve, record the trade-to-trade return (the `len > 1` guard of the
source is kept although it always holds after an append), append the trade,
drop the open position. -/
def closeOut (bt : Backtester) (st : RunState) (t : Trade) (o : Obs)
    (status : String) : RunState :=
  let t1 := settleTrade bt t o.date o.spot_price o.futures_price status
  let t2 := { t1 with exit_basis := some (o.futures_price - o.spot_price) }
  let pnl := tradePnl bt t o.date o.spot_price o.futures_price
  let prev := st.equity.headD 0
  let nextEq := prev + pnl
  { current_trade := none
    equity := nextEq :: st.equity
    daily_returns :=
      if 1 < (nextEq :: st.equity).length then
        ((nextEq - prev) / prev) :: st.daily_returns
      else st.daily_returns
    trades := t2 :: st.trades }

/-- The exit block of the observation loop (engine.py lines 302-356,
`# Check if we have an open trade`): close the open trade if the signal is
stop-loss/full-exit (status `stopped_out`/`closed`) or the holding-day
limit is reached (status `closed`). -/
def exitPhase (bt : Backtester) (holding_days : ℤ) (st : RunState) (o : Obs)
    (signal : Signal) : RunState :=
  match st.current_trade with
  | none => st
  | some t =>
    if signal = Signal.stopLoss ∨ signal = Signal.fullExit then
      closeOut bt st t o (if signal = Signal.stopLoss then "stopped_out" else "closed")
    else if holding_days ≤ o.date - t.entry_date then
      closeOut bt st t o "closed"
    else st

/-- The entry block of the observation loop (engine.py lines 358-367,
`# Entry conditions (no open trade)`): open a size-1 trade on
strong/acceptable entry when no trade is open (including when the exit
block just closed one on this same observation). -/
def entryPhase (st : RunState) (o : Obs) (signal : Signal) : RunState :=
  match st.current_trade with
  | none =>
    if signal = Signal.strongEntry ∨ signal = Signal.acceptableEntry then
      { st with current_trade := some {
          entry_date := o.date
          entry_spot := o.spot_price
          entry_futures := o.futures_price
          entry_basis := o.futures_price - o.spot_price
          position_size := 1 } }
    else st
  | some _ => st

/-- One iteration of the observation loop of `run_backtest` (engine.py
lines 291-367): compute days-to-expiry and the signal, run the exit block,
then the entry block. -/
def stepObs (bt : Backtester) (holding_days : ℤ) (st : RunState) (o : Obs) : RunState :=
  let signal := generate_signal o.spot_price o.futures_price (o.futures_expiry - o.date)
  entryPhase (exitPhase bt holding_days st o signal) o signal

/-- The post-loop force close (engine.py lines 369-393): close any still
open trade at the last observation's prices with status `forced_close`.
Unlike the in-loop close it does not touch the equity curve, the
trade-to-trade returns, or `exit_basis`. -/
def forceClose (bt : Backtester) (st : RunState) (o : Obs) : RunState :=
  match st.current_trade with
  | none => st
  | some t =>
    { st with
      current_trade := none
      trades := settleTrade bt t o.date o.spot_price o.futures_price "forced_close" :: st.trades }

/-- Python truthiness filter `t.realized_pnl and t.realized_pnl > 0`. -/
def pnlPos (t : Trade) : Bool :=
  match t.realized_pnl with
  | some p => if ¬ p = 0 ∧ 0 < p then true else false
  | none => false

/-- Python truthiness filter `t.realized_pnl and t.realized_pnl < 0`. -/
def pnlNeg (t : Trade) : Bool :=
  match t.realized_pnl with
  | some p => if ¬ p = 0 ∧ p < 0 then true else false
  | none => false

/-- `sum(t.return_pct for t in ts if t.return_pct)` — truthiness skips
`None` and exact-zero return percentages. -/
def returnPctSum (ts : List Trade) : ℚ :=
  ((ts.filterMap Trade.return_pct).filter (fun r => if ¬ r = 0 then true else false)).sum

/-- `statistics.mean`. -/
def listMean (l : List ℚ) : ℚ := l.sum / (l.length : ℚ)

/-- The square of `statistics.stdev`: sample variance with denominator
`n - 1`. -/
def sampleVariance (l : List ℚ) : ℚ :=
  (l.map (fun x => (x - listMean l) ^ 2)).sum / ((l.length : ℚ) - 1)

/-- The running-peak drawdown loop of engine.py lines 418-426, over the
equity curve in chronological order. -/
def maxDrawdownLoop : ℚ → ℚ → List ℚ → ℚ
  | _, maxdd, [] => maxdd
  | peak, maxdd, e :: rest =>
    let peak2 := if peak < e then e else peak
    let dd := (peak2 - e) / peak2
    maxDrawdownLoop peak2 (if maxdd < dd then dd else maxdd) rest

/-- The statistics block of `run_backtest` (engine.py lines 395-435),
computed from the final loop state.  All statistic fields keep their
dataclass defaults when there are no trades.  The stored equity curve is
most-recent-first, so `equity_curve[-1]` is its head and `equity_curve[0]`
its last element; the drawdown loop runs over the reversed (chronological)
curve.  `mean`/`stdev` do not depend on list order. -/
def mkResult (bt : Backtester) (st : RunState) (startDate endDate : ℤ) : BacktestResult :=
  let trades := st.trades.reverse
  if 0 < trades.length then
    let wins := trades.filter pnlPos
    let losses := trades.filter pnlNeg
    let eqFirst := st.equity.getLast?.getD 0
    let eqLast := st.equity.headD 0
    let fwd := st.equity.reverse
    { trades := trades
      total_trades := trades.length
      winning_trades := wins.length
      losing_trades := losses.length
      avg_win := if wins.isEmpty then 0 else returnPctSum wins / (wins.length : ℚ)
      avg_loss := if losses.isEmpty then 0 else returnPctSum losses / (losses.length : ℚ)
      total_return := (eqLast - eqFirst) / eqFirst
      max_drawdown := maxDrawdownLoop (fwd.headD 0) 0 fwd
      sharpe :=
        if 1 < st.daily_returns.length then
          if 0 < sampleVariance st.daily_returns then
            some (listMean st.daily_returns, sampleVariance st.daily_returns)
          else none
        else none
      start_date := some startDate
      end_date := some endDate
      initial_capital := bt.account_size }
  else
    { trades := trades
      total_trades := trades.length
      start_date := some startDate
      end_date := some endDate
      initial_capital := bt.account_size }

/-- Embedding of `Backtester.run_backtest(historical_data, holding_days)`
(engine.py lines 268-435).  On an empty observation list the source
evaluates `historical_data[0]` and raises `IndexError`, modelled by
`none`. -/
def run_backtest (bt : Backtester) (historical_data : List Obs)
    (holding_days : ℤ) : Option BacktestResult :=
  match historical_data with
  | [] => none
  | first :: rest =>
    let lastObs := List.getLast (first :: rest) (List.cons_ne_nil first rest)
    let st := forceClose bt
      (List.foldl (stepObs bt holding_days) (initState bt) (first :: rest)) lastObs
    some (mkResult bt st first.date lastObs.date)

/-- Loop invariant of the observation loop: the equity curve is non-empty,
its most recent value is the initial capital plus the realized P&L of the
recorded trades, its oldest value is the initial capital, and every
recorded trade was closed by the in-loop close (status `closed` or
`stopped_out`) with its realized P&L set. -/
def EngineInv (bt : Backtester) (st : RunState) : Prop :=
  st.equity ≠ [] ∧
  st.equity.headD 0 = bt.account_size + (st.trades.filterMap Trade.realized_pnl).sum ∧
  st.equity.getLast?.getD 0 = bt.account_size ∧
  ∀ t ∈ st.trades,
    (t.status = "closed" ∨ t.status = "stopped_out") ∧ t.realized_pnl ≠ none

/-- Realized P&L summed over the trades that were NOT force-closed — the
trades whose close updated the equity curve. -/
def nonForcedPnlSum (ts : List Trade) : ℚ :=
  ((ts.filter fun t => if t.status = "forced_close" then false else true).filterMap
    Trade.realized_pnl).sum

/-! ## Grid-search optimizer model (scripts/optimize_signals.py) -/

/-- Python `round(val, 6)`.  Python rounds half to even; the arguments
produced by the grids below are exact multiples of 1/1000, never at a
half-ulp, so half-up rounding coincides. -/
def round6 (q : ℚ) : ℚ := (⌊q * 1000000 + 1 / 2⌋ : ℚ) / 1000000

/-- The `while val <= stop + step/10` accumulation loop of `frange`.  The
structural `fuel` bounds the iteration count; `frange` passes one more than
the number of loop entries, so the loop stops on the value condition
exactly like the source.  (For `step ≤ 0` the source would not terminate;
the grids only use positive steps.) -/
def frangeGo (stop step : ℚ) : ℕ → ℚ → List ℚ
  | 0, _ => []
  | fuel + 1, val =>
    if val ≤ stop + step / 10 then round6 val :: frangeGo stop step fuel (val + step)
    else []

/-- Embedding of `frange(start, stop, step)` (optimize_signals.py):
float range with rounding of the recorded values. -/
def frange (start stop step : ℚ) : List ℚ :=
  frangeGo stop step (⌊(stop + step / 10 - start) / step⌋ + 1).toNat start

/-- `entry_values = frange(0.002, 0.020, 0.002)`. -/
def entry_values : List ℚ := frange 0.002 0.020 0.002

/-- `stop_values = frange(0.001, 0.005, 0.001)`. -/
def stop_values : List ℚ := frange 0.001 0.005 0.001

/-- `exit_values = frange(0.020, 0.060, 0.005)`. -/
def exit_values : List ℚ := frange 0.020 0.060 0.005

/-- `holding_values = [10, 20, 30, 40, 50, 60]`. -/
def holding_values : List ℤ := [10, 20, 30, 40, 50, 60]

/-- `itertools.product(entry_values, stop_values, exit_values,
holding_values)` as a list of tuples `(entry, stop, exit, hold)`. -/
def paramGrid : List (ℚ × ℚ × ℚ × ℤ) :=
  entry_values.flatMap fun entry =>
    stop_values.flatMap fun stop =>
      exit_values.flatMap fun exitT =>
        holding_values.map fun hold => (entry, stop, exitT, hold)

/-- The combinations that survive the two `continue` filters of
`run_optimization` (`entry <= stop` and `exit_t <= entry` are skipped);
exactly these are turned into configs and run through the backtester. -/
def survivingCombos : List (ℚ × ℚ × ℚ × ℤ) :=
  paramGrid.filter fun c =>
    if c.1 ≤ c.2.1 then false else if c.2.2.1 ≤ c.1 then false else true

/-! ## Spec-side definition for the refinement claim C4 -/

/-- Rule cascade exactly as the specification words it (spec §4.3 with the
default thresholds): coerce non-positive days to 1, `basis_pct =
(futures - spot) / spot`, `monthly_basis = basis_pct * 30 / days`, then
stop / full-exit / partial-exit / strong-entry / entry / no-entry in fixed
first-match order. -/
def generate_signal_spec (spot_price futures_price : ℚ) (days_to_expiry : ℤ) : Signal :=
  let d := if days_to_expiry ≤ 0 then 1 else days_to_expiry
  let basis_pct := (futures_price - spot_price) / spot_price
  let monthly_basis := basis_pct * 30 / (d : ℚ)
  if basis_pct < 0 ∨ monthly_basis < 0.002 then Signal.stopLoss
  else if 0.035 < monthly_basis then Signal.fullExit
  else if 0.025 < monthly_basis then Signal.partialExit
  else if 0.01 < monthly_basis then Signal.strongEntry
  else if 0.005 < monthly_basis then Signal.acceptableEntry
  else Signal.noEntry

/-! ## Concrete inputs used by counterexamples and witnesses -/

/-- The default parameter set of the scripts (config.json defaults). -/
def cfgDefault : Config :=
  { account_size := 200000, funding_cost_annual := 0.05
    entry_threshold := 0.005, stop_loss_threshold := 0.002, exit_threshold := 0.035 }

/-- A valid threshold configuration (`stop < entry < exit`) different from
the hard-coded defaults. -/
def cfgStrict : Config :=
  { account_size := 200000, funding_cost_annual := 0.05
    entry_threshold := 0.02, stop_loss_threshold := 0.01, exit_threshold := 0.03 }

/-- The engine built from the default config. -/
def btDefault : Backtester := Backtester.init cfgDefault

/-- Day 0: basis 1000/90000, 20 days to expiry, monthly basis 1/60 —
a strong-entry observation. -/
def obs0 : Obs :=
  { date := 0, spot_price := 90000, futures_price := 91000, futures_expiry := 20 }

/-- Day 1: same prices, 19 days to expiry — still a strong-entry signal,
so the open trade is neither stopped out nor exited. -/
def obs1 : Obs :=
  { date := 1, spot_price := 90000, futures_price := 91000, futures_expiry := 20 }

/-- A two-observation series whose single trade is opened on day 0 and
force-closed on day 1 with a non-zero (funding-only) P&L. -/
def sampleData : List Obs := [obs0, obs1]

/-- A closed trade whose realized P&L is exactly zero. -/
def tradeZeroPnl : Trade :=
  { entry_date := 0, entry_spot := 90000, entry_futures := 91000, entry_basis := 1000
    exit_date := some 10, exit_spot := some 91000, exit_futures := some 92000
    exit_basis := some 1500, realized_pnl := some 0, status := "closed" }

/-- A closed trade with non-zero realized P&L and a 10-day holding. -/
def tradeC8 : Trade :=
  { entry_date := 0, entry_spot := 90000, entry_futures := 91000, entry_basis := 1000
    exit_date := some 10, exit_spot := some 91500, exit_futures := some 92000
    exit_basis := some 500, realized_pnl := some 1000, status := "closed" }

/-- The open trade of the spec's P&L conservation scenario (§8):
entry spot 90000, entry futures 91000. -/
def tradeC7 : Trade :=
  { entry_date := 0, entry_spot := 90000, entry_futures := 91000, entry_basis := 1000 }

/-- A closed trade with non-zero realized P&L whose entry and exit fall on
the same day, so its holding period is zero. -/
def tradeSameDay : Trade :=
  { entry_date := 0, entry_spot := 90000, entry_futures := 91000, entry_basis := 1000
    exit_date := some 0, exit_spot := some 90500, exit_futures := some 91200
    exit_basis := some 700, realized_pnl := some 1000, status := "closed" }

/-- The backtest result of the two-observation sample run (used by
witnesses; `run_backtest` is shown to return exactly this value). -/
def sampleResult : BacktestResult :=
  (run_backtest btDefault sampleData 30).getD {}

/-! ## Helper lemmas: engine loop invariant -/

theorem closeOut_inv (bt : Backtester) (st : RunState) (t : Trade) (o : Obs)
    (status : String) (h : EngineInv bt st)
    (hs : status = "closed" ∨ status = "stopped_out") :
    EngineInv bt (closeOut bt st t o status) := by
  obtain ⟨hne, hhead, hlast, htr⟩ := h
  obtain ⟨e, es, hq⟩ : ∃ e es, st.equity = e :: es := by
    cases hq : st.equity with
    | nil => exact absurd hq hne
    | cons e es => exact ⟨e, es, rfl⟩
  unfold closeOut
  rw [hq] at hhead hlast
  simp only [List.headD_cons] at hhead
  refine ⟨by simp, ?_, ?_, ?_⟩
  · simp only [hq, List.headD_cons, settleTrade, List.filterMap_cons, hhead, List.sum_cons]
    ring
  · simp only [hq, List.getLast?_cons_cons]
    exact hlast
  · intro t' ht'
    simp only [List.mem_cons] at ht'
    rcases ht' with rfl | ht'
    · simp [settleTrade, hs]
    · exact htr t' ht'

theorem exitPhase_inv (bt : Backtester) (hd : ℤ) (st : RunState) (o : Obs)
    (signal : Signal) (h : EngineInv bt st) :
    EngineInv bt (exitPhase bt hd st o signal) := by
  unfold exitPhase
  cases hc : st.current_trade with
  | none => exact h
  | some t =>
    dsimp only
    by_cases h1 : signal = Signal.stopLoss ∨ signal = Signal.fullExit
    · rw [if_pos h1]
      refine closeOut_inv bt st t o _ h ?_
      by_cases h2 : signal = Signal.stopLoss
      · rw [if_pos h2]; exact Or.inr rfl
      · rw [if_neg h2]; exact Or.inl rfl
    · rw [if_neg h1]
      by_cases h2 : hd ≤ o.date - t.entry_date
      · rw [if_pos h2]; exact closeOut_inv bt st t o _ h (Or.inl rfl)
      · rw [if_neg h2]; exact h

theorem entryPhase_inv (bt : Backtester) (st : RunState) (o : Obs)
    (signal : Signal) (h : EngineInv bt st) :
    EngineInv bt (entryPhase st o signal) := by
  unfold entryPhase
  cases hc : st.current_trade with
  | none =>
    dsimp only
    split_ifs with h1
    · exact h
    · exact h
  | some _ => exact h

theorem stepObs_inv (bt : Backtester) (hd : ℤ) (st : RunState) (o : Obs)
    (h : EngineInv bt st) : EngineInv bt (stepObs bt hd st o) :=
  entryPhase_inv _ _ _ _ (exitPhase_inv _ _ _ _ _ h)

theorem foldl_inv (bt : Backtester) (hd : ℤ) (l : List Obs) (st : RunState)
    (h : EngineInv bt st) : EngineInv bt (List.foldl (stepObs bt hd) st l) := by
  induction l generalizing st with
  | nil => exact h
  | cons o rest ih => exact ih _ (stepObs_inv bt hd st o h)

theorem initState_inv (bt : Backtester) : EngineInv bt (initState bt) :=
  ⟨by simp [initState], by simp [initState], by simp [initState], by simp [initState]⟩

theorem forceClose_equity (bt : Backtester) (st : RunState) (o : Obs) :
    (forceClose bt st o).equity = st.equity := by
  unfold forceClose; cases st.current_trade <;> rfl

theorem forceClose_trades (bt : Backtester) (st : RunState) (o : Obs) :
    (forceClose bt st o).trades = st.trades ∨
    ∃ t, (forceClose bt st o).trades =
      settleTrade bt t o.date o.spot_price o.futures_price "forced_close" :: st.trades := by
  unfold forceClose
  cases st.current_trade with
  | none => exact Or.inl rfl
  | some t => exact Or.inr ⟨t, rfl⟩

theorem mkResult_trades (bt : Backtester) (st : RunState) (s e : ℤ) :
    (mkResult bt st s e).trades = st.trades.reverse := by
  simp only [mkResult]; split_ifs <;> rfl

theorem mkResult_total_return (bt : Backtester) (st : RunState) (s e : ℤ) :
    (mkResult bt st s e).total_return =
      if 0 < st.trades.reverse.length then
        (st.equity.headD 0 - st.equity.getLast?.getD 0) / st.equity.getLast?.getD 0
      else 0 := by
  simp only [mkResult]; split_ifs <;> rfl

theorem nonForcedPnlSum_reverse (ts : List Trade) :
    nonForcedPnlSum ts.reverse = nonForcedPnlSum ts := by
  unfold nonForcedPnlSum
  rw [List.filter_reverse, List.filterMap_reverse, List.sum_reverse]

theorem nonForcedPnlSum_forced_cons (t : Trade) (ts : List Trade)
    (ht : t.status = "forced_close") :
    nonForcedPnlSum (t :: ts) = nonForcedPnlSum ts := by
  unfold nonForcedPnlSum
  rw [List.filter_cons]
  simp [ht]

theorem nonForcedPnlSum_loop (ts : List Trade)
    (h : ∀ t ∈ ts, t.status = "closed" ∨ t.status = "stopped_out") :
    nonForcedPnlSum ts = (ts.filterMap Trade.realized_pnl).sum := by
  unfold nonForcedPnlSum
  congr 1
  congr 1
  refine List.filter_eq_self.mpr fun t ht => ?_
  rcases h t ht with h' | h' <;> simp [h']

/-- Evaluation of `generate_signal` on the sample observations: day 0 has
20 days to expiry, monthly basis 1/60 ≈ 1.67% → strong entry. -/
theorem signal_sample_day0 : generate_signal 90000 91000 20 = Signal.strongEntry := by
  norm_num [generate_signal, monthlyBasis, basisPct, coerceDte]

/-- Day 1 has 19 days to expiry, monthly basis 1/57 ≈ 1.75% → strong entry
again, so the open trade is neither stopped out nor exited. -/
theorem signal_sample_day1 : generate_signal 90000 91000 19 = Signal.strongEntry := by
  norm_num [generate_signal, monthlyBasis, basisPct, coerceDte]

/-- `run_backtest` on the sample data returns exactly `sampleResult`
(definitional: the option is `some` by construction on a non-empty list). -/
theorem sampleResult_some : run_backtest btDefault sampleData 30 = some sampleResult := rfl

/-! ## Claim C1 — empty observation sequence -/

/-- C1 counterexample: contrary to the claim, `run_backtest` on an empty
observation sequence does not return a zeroed `BacktestResult` — it reads
`historical_data[0]` unconditionally and raises `IndexError` (modelled by
`none`), for the default configuration and holding limit 30. -/
theorem C1_counterexample :
    run_backtest btDefault ([] : List Obs) 30 = none := rfl

/-- C1 (amended): for every config and holding-day limit, `run_backtest`
on an empty observation sequence raises `IndexError` while reading the
first observation (modelled by `none`); no `BacktestResult` is returned. -/
theorem C1_empty_input_raises (cfg : Config) (holding_days : ℤ) :
    run_backtest (Backtester.init cfg) ([] : List Obs) holding_days = none := rfl

/-! ## Claim C2 — signals are NOT driven by the configured thresholds -/

/-- C2 counterexample: `cfgStrict` is a valid threshold configuration
(`stop 0.01 < entry 0.02 < exit 0.03`), yet for the input
`(spot, futures, dte) = (90000, 91350, 30)` the monthly basis 0.015 lies
below the configured entry threshold and `generate_signal` still returns
`StrongEntry` — the generator compares against hard-coded constants and
ignores the configuration entirely. -/
theorem C2_counterexample :
    cfgStrict.stop_loss_threshold < cfgStrict.entry_threshold ∧
    cfgStrict.entry_threshold < cfgStrict.exit_threshold ∧
    monthlyBasis 90000 91350 30 < cfgStrict.entry_threshold ∧
    generate_signal 90000 91350 30 = Signal.strongEntry :=
  ⟨by norm_num [cfgStrict], by norm_num [cfgStrict],
   by norm_num [cfgStrict, monthlyBasis, basisPct, coerceDte],
   by norm_num [generate_signal, monthlyBasis, basisPct, coerceDte]⟩

/-- C2 (amended): `generate_signal` compares `monthly_basis` only against
the hard-coded default cut-offs, so the claimed ordering property holds
exactly for those defaults: the signal is never `StrongEntry` or
`AcceptableEntry` when `monthly_basis < 0.005`, and never `NoEntry` when
`monthly_basis > 0.035`; for any other configured thresholds the claimed
property fails (see the counterexample). -/
theorem C2_default_threshold_ordering (s f : ℚ) (d : ℤ) :
    (monthlyBasis s f d < 0.005 →
      generate_signal s f d ≠ Signal.strongEntry ∧
      generate_signal s f d ≠ Signal.acceptableEntry) ∧
    (0.035 < monthlyBasis s f d → generate_signal s f d ≠ Signal.noEntry) := by
  unfold generate_signal
  constructor
  · intro h
    split_ifs <;> constructor <;> (try simp) <;> linarith
  · intro h
    split_ifs <;> (try simp) <;> linarith

/-- C2 witness: at `(90000, 90100, 30)` the monthly basis 1/900 is below
0.005 and the signal is not an entry; at `(90000, 94500, 30)` the monthly
basis 0.05 exceeds 0.035 and the signal is not `NoEntry`. -/
theorem C2_default_threshold_ordering_witness :
    (generate_signal 90000 90100 30 ≠ Signal.strongEntry ∧
     generate_signal 90000 90100 30 ≠ Signal.acceptableEntry) ∧
    generate_signal 90000 94500 30 ≠ Signal.noEntry :=
  ⟨(C2_default_threshold_ordering 90000 90100 30).1
      (by norm_num [monthlyBasis, basisPct, coerceDte]),
   (C2_default_threshold_ordering 90000 94500 30).2
      (by norm_num [monthlyBasis, basisPct, coerceDte])⟩

/-! ## Claim C4 — exact rule cascade of generate_signal -/

/-- C4: `generate_signal` implements exactly the specified cascade — coerce
`days_to_expiry ≤ 0` to 1, `basis_pct = (futures - spot)/spot`,
`monthly_basis = basis_pct * 30 / days`, then StopLoss (if `basis_pct < 0`
or `monthly_basis < 0.002`), FullExit (`> 0.035`), PartialExit (`> 0.025`),
StrongEntry (`> 0.01`), AcceptableEntry (`> 0.005`), NoEntry, in
first-match order — for every input. -/
theorem C4_signal_cascade (s f : ℚ) (d : ℤ) :
    generate_signal s f d = generate_signal_spec s f d := by
  simp only [generate_signal, generate_signal_spec, monthlyBasis, basisPct, coerceDte,
    mul_div_assoc]
  split_ifs <;> tauto

/-! ## Claim C7 — P&L of the spec scenario -/

/-- C7: for the close of a trade entered at spot 90000 / futures 91000 and
exited after 10 days at spot 92000 / futures 92500 with size 1 and annual
funding 0.05, the engine's formulas give `spot_pnl = 2000`,
`futures_pnl = -1500`, `funding_cost = 90000·0.05/365·10 = 45000/365
(≈ 123.29)` and `realized_pnl = 2000 - 1500 - 45000/365 = 137500/365
(≈ 376.71)`. -/
theorem C7_pnl_scenario :
    spotPnl 90000 92000 1 = 2000 ∧
    futuresPnl 91000 92500 1 = -1500 ∧
    fundingCost 0.05 10 90000 1 = 45000 / 365 ∧
    (settleTrade btDefault tradeC7 10 92000 92500 "closed").realized_pnl =
      some (2000 - 1500 - 45000 / 365) :=
  ⟨by norm_num [spotPnl], by norm_num [futuresPnl], by norm_num [fundingCost],
   by norm_num [settleTrade, tradePnl, spotPnl, futuresPnl, fundingCost, tradeC7,
     btDefault, Backtester.init, cfgDefault]⟩

/-! ## Claim C8 — return_pct under Python truthiness -/

/-- C8 counterexample: a closed trade whose realized P&L is exactly 0 has
`return_pct = None` (the source's `if self.realized_pnl:` truthiness
guard), not 0 as the claim states. -/
theorem C8_counterexample :
    tradeZeroPnl.status = "closed" ∧
    tradeZeroPnl.realized_pnl = some 0 ∧
    tradeZeroPnl.return_pct = none ∧
    tradeZeroPnl.return_pct ≠ some 0 := by
  refine ⟨rfl, rfl, ?_, ?_⟩ <;> simp [Trade.return_pct, tradeZeroPnl]

/-- C8 (amended): full characterization of the two properties for every
trade.  `return_pct` equals `realized_pnl / (entry_spot * position_size)`
whenever the realized P&L is set and non-zero, and is `None` whenever the
realized P&L is unset or exactly 0 (Python truthiness).
`annualized_return` equals `return_pct * 365 / holding_days` exactly when
the return percentage is set and non-zero and `holding_days > 0`; in every
other case — `return_pct` `None`, return percentage zero, or
`holding_days ≤ 0` — it is `None`. -/
theorem C8_return_pct (t : Trade) :
    (∀ p : ℚ, t.realized_pnl = some p → ¬ p = 0 →
      t.return_pct = some (p / (t.entry_spot * t.position_size))) ∧
    (t.realized_pnl = some 0 → t.return_pct = none) ∧
    (t.realized_pnl = none → t.return_pct = none) ∧
    (∀ r : ℚ, t.return_pct = some r → ¬ r = 0 → 0 < t.holding_days →
      t.annualized_return = some (r * (365 / (t.holding_days : ℚ)))) ∧
    (t.return_pct = none → t.annualized_return = none) ∧
    (∀ r : ℚ, t.return_pct = some r → (r = 0 ∨ t.holding_days ≤ 0) →
      t.annualized_return = none) := by
  refine ⟨?_, ?_, ?_, ?_, ?_, ?_⟩
  · intro p hp h0
    unfold Trade.return_pct
    rw [hp]
    exact if_neg h0
  · intro hp
    unfold Trade.return_pct
    rw [hp]
    exact if_pos rfl
  · intro hp
    unfold Trade.return_pct
    rw [hp]
  · intro r hr h0 hd
    unfold Trade.annualized_return
    rw [hr]
    exact if_pos ⟨h0, hd⟩
  · intro hr
    unfold Trade.annualized_return
    rw [hr]
  · intro r hr hor
    unfold Trade.annualized_return
    rw [hr]
    refine if_neg ?_
    rintro ⟨hne, hpos⟩
    rcases hor with h | h
    · exact hne h
    · omega

/-- C8 witness: every case of the characterization at a concrete trade —
`tradeC8` (P&L 1000, 10-day holding: both values defined), `tradeZeroPnl`
(P&L exactly 0: both `None`), `tradeC7` (open, P&L unset: both `None`),
and `tradeSameDay` (non-zero P&L, zero-day holding: `annualized_return`
`None`). -/
theorem C8_return_pct_witness :
    tradeC8.return_pct = some (1000 / (tradeC8.entry_spot * tradeC8.position_size)) ∧
    tradeZeroPnl.return_pct = none ∧
    tradeC7.return_pct = none ∧
    tradeC8.annualized_return =
      some (1000 / (tradeC8.entry_spot * tradeC8.position_size) *
        (365 / (tradeC8.holding_days : ℚ))) ∧
    tradeC7.annualized_return = none ∧
    tradeZeroPnl.annualized_return = none ∧
    tradeSameDay.annualized_return = none := by
  have hc8 := C8_return_pct tradeC8
  have hret := hc8.1 1000 rfl (by norm_num)
  have hzero := (C8_return_pct tradeZeroPnl).2.1 rfl
  have hopen := (C8_return_pct tradeC7).2.2.1 rfl
  refine ⟨hret, hzero, hopen,
    hc8.2.2.2.1 _ hret (by norm_num [tradeC8]) (by norm_num [tradeC8, Trade.holding_days]),
    (C8_return_pct tradeC7).2.2.2.2.1 hopen,
    (C8_return_pct tradeZeroPnl).2.2.2.2.1 hzero,
    (C8_return_pct tradeSameDay).2.2.2.2.2 _
      ((C8_return_pct tradeSameDay).1 1000 rfl (by norm_num))
      (Or.inr (by norm_num [tradeSameDay, Trade.holding_days]))⟩

/-! ## Claim C9 — grid filter of the optimizer -/

/-- Concrete value of `entry_values`: `frange(0.002, 0.020, 0.002)`. -/
theorem entry_values_eq : entry_values =
    [0.002, 0.004, 0.006, 0.008, 0.010, 0.012, 0.014, 0.016, 0.018, 0.020] := by
  norm_num [entry_values, frange, frangeGo, round6]

/-- Concrete value of `stop_values`: `frange(0.001, 0.005, 0.001)`. -/
theorem stop_values_eq : stop_values = [0.001, 0.002, 0.003, 0.004, 0.005] := by
  norm_num [stop_values, frange, frangeGo, round6]

/-- Concrete value of `exit_values`: `frange(0.020, 0.060, 0.005)`. -/
theorem exit_values_eq : exit_values =
    [0.020, 0.025, 0.030, 0.035, 0.040, 0.045, 0.050, 0.055, 0.060] := by
  norm_num [exit_values, frange, frangeGo, round6]

/-- C9: every parameter combination that survives the optimizer's filters
(and is therefore configured and run through the backtester) satisfies
`stop_loss_threshold < entry_threshold` and
`entry_threshold < exit_threshold`; combinations violating either ordering
are discarded by the two `continue` statements before scoring. -/
theorem C9_grid_filter (c : ℚ × ℚ × ℚ × ℤ) (hc : c ∈ survivingCombos) :
    c.2.1 < c.1 ∧ c.1 < c.2.2.1 := by
  rcases List.mem_filter.mp hc with ⟨-, hpred⟩
  by_cases h1 : c.1 ≤ c.2.1 <;> by_cases h2 : c.2.2.1 ≤ c.1 <;>
    simp [h1, h2] at hpred <;> exact ⟨lt_of_not_le h1, lt_of_not_le h2⟩

/-- C9 witness: the combination `(entry 0.004, stop 0.001, exit 0.020,
hold 10)` is in the surviving grid and satisfies both orderings. -/
theorem C9_grid_filter_witness :
    ((0.004 : ℚ), (0.001 : ℚ), (0.020 : ℚ), (10 : ℤ)) ∈ survivingCombos ∧
    ((0.001 : ℚ) < 0.004 ∧ (0.004 : ℚ) < 0.020) := by
  have hm : ((0.004 : ℚ), (0.001 : ℚ), (0.020 : ℚ), (10 : ℤ)) ∈ survivingCombos := by
    refine List.mem_filter.mpr ⟨?_, by norm_num⟩
    refine List.mem_flatMap.mpr ⟨0.004, ?_, ?_⟩
    · rw [entry_values_eq]; norm_num
    refine List.mem_flatMap.mpr ⟨0.001, ?_, ?_⟩
    · rw [stop_values_eq]; norm_num
    refine List.mem_flatMap.mpr ⟨0.020, ?_, ?_⟩
    · rw [exit_values_eq]; norm_num
    refine List.mem_map.mpr ⟨10, ?_, rfl⟩
    norm_num [holding_values]
  exact ⟨hm, C9_grid_filter _ hm⟩

/-! ## Claim C10 — results do not depend on the threshold fields -/

/-- C10: two configs that agree on `account_size` and
`funding_cost_annual` but differ arbitrarily in `entry_threshold`,
`stop_loss_threshold` and `exit_threshold` produce identical
`BacktestResult`s on every observation sequence and holding limit: the
constructor never reads the threshold fields and `generate_signal`
compares only against hard-coded constants. -/
theorem C10_threshold_independence (cfg1 cfg2 : Config)
    (hacct : cfg1.account_size = cfg2.account_size)
    (hfund : cfg1.funding_cost_annual = cfg2.funding_cost_annual)
    (data : List Obs) (holding_days : ℤ) :
    run_backtest (Backtester.init cfg1) data holding_days =
      run_backtest (Backtester.init cfg2) data holding_days := by
  have h : Backtester.init cfg1 = Backtester.init cfg2 := by
    simp [Backtester.init, hacct, hfund]
  rw [h]

/-- C10 witness: `cfgDefault` and `cfgStrict` share account size and
funding cost but have different thresholds; the sample backtest results
coincide. -/
theorem C10_threshold_independence_witness :
    run_backtest (Backtester.init cfgDefault) sampleData 30 =
      run_backtest (Backtester.init cfgStrict) sampleData 30 :=
  C10_threshold_independence cfgDefault cfgStrict rfl rfl sampleData 30

/-! ## Claim C3 — equity curve and total_return vs the force-closed trade -/

/-- C3 counterexample: on the two-observation sample run the only trade is
force-closed with realized P&L `-900/73 ≠ 0` (one day of funding), yet
`total_return = 0`: the force-close appends the trade to the result but
never appends `prev_equity + realized_pnl` to the equity curve, so the
claimed identity `total_return = (Σ realized P&L of all trades, forced
included) / initial_capital` fails at this input. -/
theorem C3_counterexample :
    (run_backtest btDefault sampleData 30).map
      (fun r => (r.total_return, (r.trades.filterMap Trade.realized_pnl).sum,
                 r.trades.map Trade.status, r.initial_capital)) =
      some (0, -900 / 73, ["forced_close"], 200000) ∧
    (0 : ℚ) ≠ (-900 / 73) / 200000 := by
  constructor
  · simp [run_backtest, sampleData, obs0, obs1, btDefault, Backtester.init, cfgDefault,
      initState, stepObs, exitPhase, entryPhase, signal_sample_day0, signal_sample_day1,
      closeOut, settleTrade, tradePnl, spotPnl, futuresPnl, fundingCost, forceClose]
    norm_num [mkResult, pnlPos, pnlNeg, returnPctSum, Trade.return_pct, listMean,
      sampleVariance, maxDrawdownLoop, List.filter, List.filterMap]
  · norm_num

/-- C3 (amended): every trade closed during the observation loop appends
`prev_equity + realized_pnl` to the equity curve, but the trade
force-closed at the end of the sequence is appended to the result without
an equity update; hence `total_return = (last_equity - first_equity) /
first_equity` equals the summed realized P&L of only the non-force-closed
trades divided by the initial capital. -/
theorem C3_total_return_loop_trades (bt : Backtester) (data : List Obs) (hd : ℤ)
    (r : BacktestResult) (h : run_backtest bt data hd = some r) :
    r.total_return = nonForcedPnlSum r.trades / bt.account_size := by
  cases data with
  | nil => simp [run_backtest] at h
  | cons first rest =>
    simp only [run_backtest, Option.some.injEq] at h
    subst h
    rw [mkResult_total_return, mkResult_trades, nonForcedPnlSum_reverse]
    obtain ⟨hne, hhead, hlast, htr⟩ :=
      foldl_inv bt hd (first :: rest) (initState bt) (initState_inv bt)
    set st1 := List.foldl (stepObs bt hd) (initState bt) (first :: rest) with hst1
    set lastObs := List.getLast (first :: rest) (List.cons_ne_nil first rest) with hlo
    have heq := forceClose_equity bt st1 lastObs
    have hsum : nonForcedPnlSum (forceClose bt st1 lastObs).trades =
        (st1.trades.filterMap Trade.realized_pnl).sum := by
      rcases forceClose_trades bt st1 lastObs with h' | ⟨t, h'⟩
      · rw [h']; exact nonForcedPnlSum_loop _ fun t ht => (htr t ht).1
      · rw [h', nonForcedPnlSum_forced_cons _ _ (by simp [settleTrade])]
        exact nonForcedPnlSum_loop _ fun t ht => (htr t ht).1
    rw [heq, hsum, hhead, hlast]
    split_ifs with hlen
    · rw [add_sub_cancel_left]
    · have hz' : (forceClose bt st1 lastObs).trades = [] := by
        rcases List.eq_nil_or_concat (forceClose bt st1 lastObs).trades.reverse with h' | ⟨l, a, h'⟩
        · simpa using congrArg List.reverse h'
        · rw [h'] at hlen; simp at hlen
      have hz : (st1.trades.filterMap Trade.realized_pnl).sum = 0 := by
        rcases forceClose_trades bt st1 lastObs with h' | ⟨t, h'⟩
        · rw [h'] at hz'; rw [hz']; simp
        · rw [h'] at hz'; simp at hz'
      rw [hz, zero_div]

/-- C3 witness: on the sample run the amended identity holds — the forced
trade is excluded, giving `total_return = 0 / 200000 = 0`. -/
theorem C3_total_return_loop_trades_witness :
    sampleResult.total_return = nonForcedPnlSum sampleResult.trades / btDefault.account_size :=
  C3_total_return_loop_trades btDefault sampleData 30 sampleResult sampleResult_some

/-! ## Claim C5 — no trade in the result is left open -/

/-- C5: for every finite observation sequence and holding limit, every
trade in the returned `BacktestResult` has status different from `open` —
each opened trade is closed, stopped out, or force-closed by the end of
the run. -/
theorem C5_no_open_trades (bt : Backtester) (data : List Obs) (hd : ℤ)
    (r : BacktestResult) (h : run_backtest bt data hd = some r) :
    r.trades.all (fun t => t.status != "open") = true := by
  cases data with
  | nil => simp [run_backtest] at h
  | cons first rest =>
    simp only [run_backtest, Option.some.injEq] at h
    subst h
    rw [mkResult_trades, List.all_eq_true]
    intro t ht
    rw [List.mem_reverse] at ht
    obtain ⟨-, -, -, htr⟩ :=
      foldl_inv bt hd (first :: rest) (initState bt) (initState_inv bt)
    set st1 := List.foldl (stepObs bt hd) (initState bt) (first :: rest) with hst1
    set lastObs := List.getLast (first :: rest) (List.cons_ne_nil first rest) with hlo
    have hstatus : t.status = "closed" ∨ t.status = "stopped_out" ∨
        t.status = "forced_close" := by
      rcases forceClose_trades bt st1 lastObs with h' | ⟨t', h'⟩
      · rw [h'] at ht
        rcases (htr t ht).1 with h'' | h''
        · exact Or.inl h''
        · exact Or.inr (Or.inl h'')
      · rw [h'] at ht
        rcases List.mem_cons.mp ht with rfl | ht'
        · exact Or.inr (Or.inr (by simp [settleTrade]))
        · rcases (htr t ht').1 with h'' | h''
          · exact Or.inl h''
          · exact Or.inr (Or.inl h'')
    rw [bne_iff_ne]
    rcases hstatus with h' | h' | h' <;> rw [h'] <;> decide

/-- C5 witness: the sample run's single (force-closed) trade passes the
check. -/
theorem C5_no_open_trades_witness :
    sampleResult.trades.all (fun t => t.status != "open") = true :=
  C5_no_open_trades btDefault sampleData 30 sampleResult sampleResult_some

/-! ## Helper lemmas: calendar arithmetic -/

theorem toRD_day (y m d : ℤ) : toRD y m d = toRD y m 1 + (d - 1) := by
  simp only [toRD]
  ring

set_option maxHeartbeats 1000000 in
theorem daysInMonth_bounds (y m : ℤ) :
    28 ≤ daysInMonth y m ∧ daysInMonth y m ≤ 31 := by
  unfold daysInMonth
  cases hl : isLeap y <;> split_ifs <;> omega

theorem toRD_next_month (y m : ℤ) (h1 : 1 ≤ m) (h2 : m ≤ 12) :
    toRD (nextMonth y m).1 (nextMonth y m).2 1 = toRD y m 1 + daysInMonth y m := by
  rcases eq_or_ne m 2 with rfl | hm2
  · by_cases h4 : y % 4 = 0 <;> by_cases h100 : y % 100 = 0 <;> by_cases h400 : y % 400 = 0 <;>
      simp [nextMonth, toRD, daysInMonth, isLeap, h4, h100, h400] <;> omega
  · interval_cases m <;>
      first
      | exact absurd rfl hm2
      | (simp +decide only [nextMonth, toRD, daysInMonth, reduceIte]; omega)

theorem nextMonth_valid (y m : ℤ) (h1 : 1 ≤ m) (h2 : m ≤ 12) :
    1 ≤ (nextMonth y m).2 ∧ (nextMonth y m).2 ≤ 12 := by
  unfold nextMonth
  split_ifs <;> constructor <;> omega

theorem nextMonth_idx (y m : ℤ) (h1 : 1 ≤ m) (h2 : m ≤ 12) :
    monthIdx (nextMonth y m).1 (nextMonth y m).2 = monthIdx y m + 1 := by
  unfold nextMonth monthIdx
  split_ifs with h <;> simp <;> omega

theorem glfm_bounds (y m : ℤ) (h1 : 1 ≤ m) (h2 : m ≤ 12) :
    toRD y m 1 + 21 ≤ get_last_friday_of_month y m ∧
    get_last_friday_of_month y m < toRD (nextMonth y m).1 (nextMonth y m).2 1 := by
  have hroll := toRD_next_month y m h1 h2
  have hlen := daysInMonth_bounds y m
  simp only [get_last_friday_of_month, weekday]
  omega

theorem firstRD_mono (k : ℕ) : ∀ (y1 m1 y2 m2 : ℤ), 1 ≤ m1 → m1 ≤ 12 → 1 ≤ m2 → m2 ≤ 12 →
    monthIdx y2 m2 - monthIdx y1 m1 = (k : ℤ) →
    toRD y1 m1 1 + 28 * (k : ℤ) ≤ toRD y2 m2 1 := by
  induction k with
  | zero =>
    intro y1 m1 y2 m2 h1 h2 h3 h4 hk
    have heq : y1 = y2 ∧ m1 = m2 := by unfold monthIdx at hk; omega
    rw [heq.1, heq.2]
    omega
  | succ k ih =>
    intro y1 m1 y2 m2 h1 h2 h3 h4 hk
    have hv := nextMonth_valid y1 m1 h1 h2
    have hidx := nextMonth_idx y1 m1 h1 h2
    have hroll := toRD_next_month y1 m1 h1 h2
    have hlen := daysInMonth_bounds y1 m1
    have := ih (nextMonth y1 m1).1 (nextMonth y1 m1).2 y2 m2 hv.1 hv.2 h3 h4 (by omega)
    omega

theorem glfm_strictMono (y1 m1 y2 m2 : ℤ) (h1 : 1 ≤ m1) (h2 : m1 ≤ 12)
    (h3 : 1 ≤ m2) (h4 : m2 ≤ 12) (hlt : monthIdx y1 m1 < monthIdx y2 m2) :
    get_last_friday_of_month y1 m1 < get_last_friday_of_month y2 m2 := by
  have hb1 := glfm_bounds y1 m1 h1 h2
  have hb2 := glfm_bounds y2 m2 h3 h4
  have hv := nextMonth_valid y1 m1 h1 h2
  have hidx := nextMonth_idx y1 m1 h1 h2
  have hmono := firstRD_mono (monthIdx y2 m2 - monthIdx (nextMonth y1 m1).1 (nextMonth y1 m1).2).toNat
    (nextMonth y1 m1).1 (nextMonth y1 m1).2 y2 m2 hv.1 hv.2 h3 h4 (by omega)
  omega

theorem mem_scheduleMonths (endBuf : ℤ) (fuel : ℕ) : ∀ (y m : ℤ), 1 ≤ m → m ≤ 12 →
    endBuf + 1 - toRD y m 1 ≤ (fuel : ℤ) →
    ∀ x, (x ∈ scheduleMonths endBuf fuel y m ↔
      ∃ y' m', 1 ≤ m' ∧ m' ≤ 12 ∧ monthIdx y m ≤ monthIdx y' m' ∧
        toRD y' m' 1 ≤ endBuf ∧ x = get_last_friday_of_month y' m') := by
  induction fuel with
  | zero =>
    intro y m h1 h2 hf x
    simp only [scheduleMonths, List.not_mem_nil, false_iff]
    rintro ⟨y', m', hm1, hm2, hidx, hle, rfl⟩
    have hmono := firstRD_mono (monthIdx y' m' - monthIdx y m).toNat
      y m y' m' h1 h2 hm1 hm2 (by omega)
    omega
  | succ fuel ih =>
    intro y m h1 h2 hf x
    have hv := nextMonth_valid y m h1 h2
    have hidx := nextMonth_idx y m h1 h2
    have hroll := toRD_next_month y m h1 h2
    have hlen := daysInMonth_bounds y m
    rw [scheduleMonths]
    by_cases hcond : toRD y m 1 ≤ endBuf
    · rw [if_pos hcond]
      rw [List.mem_cons, ih (nextMonth y m).1 (nextMonth y m).2 hv.1 hv.2 (by omega) x]
      constructor
      · rintro (rfl | ⟨y', m', hm1, hm2, hidx', hle', rfl⟩)
        · exact ⟨y, m, h1, h2, le_refl _, hcond, rfl⟩
        · exact ⟨y', m', hm1, hm2, by omega, hle', rfl⟩
      · rintro ⟨y', m', hm1, hm2, hidx', hle', rfl⟩
        by_cases heq : monthIdx y' m' = monthIdx y m
        · left
          have : y' = y ∧ m' = m := by unfold monthIdx at heq; omega
          rw [this.1, this.2]
        · right
          exact ⟨y', m', hm1, hm2, by omega, hle', rfl⟩
    · rw [if_neg hcond]
      simp only [List.not_mem_nil, false_iff]
      rintro ⟨y', m', hm1, hm2, hidx', hle', rfl⟩
      have hmono := firstRD_mono (monthIdx y' m' - monthIdx y m).toNat
        y m y' m' h1 h2 hm1 hm2 (by omega)
      omega

theorem sorted_scheduleMonths (endBuf : ℤ) (fuel : ℕ) : ∀ (y m : ℤ), 1 ≤ m → m ≤ 12 →
    endBuf + 1 - toRD y m 1 ≤ (fuel : ℤ) →
    List.Sorted (· < ·) (scheduleMonths endBuf fuel y m) := by
  induction fuel with
  | zero =>
    intro y m h1 h2 hf
    simp [scheduleMonths]
  | succ fuel ih =>
    intro y m h1 h2 hf
    have hv := nextMonth_valid y m h1 h2
    have hidx := nextMonth_idx y m h1 h2
    have hroll := toRD_next_month y m h1 h2
    have hlen := daysInMonth_bounds y m
    rw [scheduleMonths]
    by_cases hcond : toRD y m 1 ≤ endBuf
    · rw [if_pos hcond]
      rw [List.sorted_cons]
      constructor
      · intro b hb
        rw [mem_scheduleMonths endBuf fuel (nextMonth y m).1 (nextMonth y m).2
          hv.1 hv.2 (by omega) b] at hb
        obtain ⟨y', m', hm1, hm2, hidx', hle', rfl⟩ := hb
        exact glfm_strictMono y m y' m' h1 h2 hm1 hm2 (by omega)
      · exact ih (nextMonth y m).1 (nextMonth y m).2 hv.1 hv.2 (by omega)
    · rw [if_neg hcond]
      simp

theorem generate_expiry_schedule_eq (ys ms ds ye me de : ℤ)
    (h1 : 1 ≤ ms) (h2 : ms ≤ 12) :
    generate_expiry_schedule ys ms ds ye me de =
      scheduleMonths (toRD ye me de + 60)
        (toRD ye me de + 60 + 1 - toRD ys ms 1).toNat ys ms := by
  have hfuel : toRD ye me de + 60 + 1 - toRD ys ms 1 ≤
      ((toRD ye me de + 60 + 1 - toRD ys ms 1).toNat : ℤ) := Int.self_le_toNat _
  have hs := sorted_scheduleMonths (toRD ye me de + 60)
    (toRD ye me de + 60 + 1 - toRD ys ms 1).toNat ys ms h1 h2 hfuel
  simp only [generate_expiry_schedule]
  rw [List.Nodup.dedup hs.nodup, List.mergeSort_eq_self (hs.imp le_of_lt)]

theorem exists_last_window_month (endBuf : ℤ) (k : ℕ) : ∀ (y m : ℤ), 1 ≤ m → m ≤ 12 →
    toRD y m 1 ≤ endBuf → endBuf + 1 - toRD y m 1 ≤ (k : ℤ) →
    ∃ y' m', 1 ≤ m' ∧ m' ≤ 12 ∧ monthIdx y m ≤ monthIdx y' m' ∧ toRD y' m' 1 ≤ endBuf ∧
      endBuf < toRD (nextMonth y' m').1 (nextMonth y' m').2 1 := by
  induction k with
  | zero =>
    intro y m h1 h2 hcond hf
    exact absurd hf (by omega)
  | succ k ih =>
    intro y m h1 h2 hcond hf
    have hv := nextMonth_valid y m h1 h2
    have hidx := nextMonth_idx y m h1 h2
    have hroll := toRD_next_month y m h1 h2
    have hlen := daysInMonth_bounds y m
    by_cases hnext : toRD (nextMonth y m).1 (nextMonth y m).2 1 ≤ endBuf
    · obtain ⟨y', m', hm1, hm2, hidx', hle', hgt'⟩ :=
        ih (nextMonth y m).1 (nextMonth y m).2 hv.1 hv.2 hnext (by omega)
      exact ⟨y', m', hm1, hm2, by omega, hle', hgt'⟩
    · exact ⟨y, m, h1, h2, le_refl _, hcond, lt_of_not_le hnext⟩

theorem find_ge_sorted (d : ℤ) (l : List ℤ) : List.Sorted (· < ·) l →
    ∀ x ∈ l, d ≤ x →
    ∃ e, l.find? (fun e => decide (d ≤ e)) = some e ∧ e ∈ l ∧ d ≤ e ∧
      ∀ e' ∈ l, d ≤ e' → e ≤ e' := by
  induction l with
  | nil => intro _ x hx; simp at hx
  | cons a l ih =>
    intro hs x hx hdx
    by_cases hda : d ≤ a
    · refine ⟨a, ?_, List.mem_cons_self a l, hda, ?_⟩
      · exact List.find?_cons_of_pos _ (by simp [hda])
      · intro e' he' hde'
        rcases List.mem_cons.mp he' with rfl | he'
        · exact le_refl _
        · exact le_of_lt ((List.sorted_cons.mp hs).1 e' he')
    · have hx' : x ∈ l := by
        rcases List.mem_cons.mp hx with rfl | h
        · exact absurd hdx hda
        · exact h
      obtain ⟨e, hfind, hmem, hde, hmin⟩ := ih (List.sorted_cons.mp hs).2 x hx' hdx
      refine ⟨e, ?_, List.mem_cons_of_mem a hmem, hde, ?_⟩
      · rw [List.find?_cons_of_neg _ (by simp [hda]), hfind]
      · intro e' he' hde'
        rcases List.mem_cons.mp he' with rfl | he'
        · exact absurd hde' hda
        · exact hmin e' he' hde'

/-- C6: for every pair of valid dates `start ≤ end`, the expiry schedule
is the sorted duplicate-free list containing exactly the last-Friday dates
of the calendar months from `start`'s month through `end + 60` days (a
month's last Friday is listed iff the month starts on or before
`end + 60`); and for every date `d` with `start ≤ d ≤ end`,
`get_front_month_expiry` returns `some` of the smallest schedule entry
`≥ d` — such an entry always exists inside the buffered range, so the
last-entry fallback is not reached. -/
theorem C6_expiry_schedule_and_front_month (ys ms ds ye me de d : ℤ)
    (hvs : YmdValid ys ms ds) (hve : YmdValid ye me de)
    (hse : toRD ys ms ds ≤ toRD ye me de)
    (hds : toRD ys ms ds ≤ d) (hde : d ≤ toRD ye me de) :
    List.Sorted (· < ·) (generate_expiry_schedule ys ms ds ye me de) ∧
    (generate_expiry_schedule ys ms ds ye me de).Nodup ∧
    (∀ x, x ∈ generate_expiry_schedule ys ms ds ye me de ↔
      ∃ y m, 1 ≤ m ∧ m ≤ 12 ∧ monthIdx ys ms ≤ monthIdx y m ∧
        toRD y m 1 ≤ toRD ye me de + 60 ∧ x = get_last_friday_of_month y m) ∧
    (∃ e, get_front_month_expiry d (generate_expiry_schedule ys ms ds ye me de) = some e ∧
      e ∈ generate_expiry_schedule ys ms ds ye me de ∧ d ≤ e ∧
      ∀ e' ∈ generate_expiry_schedule ys ms ds ye me de, d ≤ e' → e ≤ e') := by
  obtain ⟨hm1, hm2, hds1, hds2⟩ := hvs
  have heq := generate_expiry_schedule_eq ys ms ds ye me de hm1 hm2
  have hfuel : toRD ye me de + 60 + 1 - toRD ys ms 1 ≤
      ((toRD ye me de + 60 + 1 - toRD ys ms 1).toNat : ℤ) := Int.self_le_toNat _
  have hsorted := sorted_scheduleMonths (toRD ye me de + 60)
    (toRD ye me de + 60 + 1 - toRD ys ms 1).toNat ys ms hm1 hm2 hfuel
  have hmem := mem_scheduleMonths (toRD ye me de + 60)
    (toRD ye me de + 60 + 1 - toRD ys ms 1).toNat ys ms hm1 hm2 hfuel
  have hday := toRD_day ys ms ds
  have hstart : toRD ys ms 1 ≤ toRD ye me de + 60 := by omega
  obtain ⟨yC, mC, hmC1, hmC2, hidxC, hleC, hgtC⟩ :=
    exists_last_window_month (toRD ye me de + 60)
      (toRD ye me de + 60 + 1 - toRD ys ms 1).toNat ys ms hm1 hm2 hstart hfuel
  have hrollC := toRD_next_month yC mC hmC1 hmC2
  have hlenC := daysInMonth_bounds yC mC
  have hbC := glfm_bounds yC mC hmC1 hmC2
  have hdleC : d ≤ get_last_friday_of_month yC mC := by omega
  have hmemC : get_last_friday_of_month yC mC ∈
      scheduleMonths (toRD ye me de + 60)
        (toRD ye me de + 60 + 1 - toRD ys ms 1).toNat ys ms :=
    (hmem _).mpr ⟨yC, mC, hmC1, hmC2, hidxC, hleC, rfl⟩
  obtain ⟨e, hfind, hememb, hdee, hmin⟩ :=
    find_ge_sorted d _ hsorted _ hmemC hdleC
  rw [heq]
  refine ⟨hsorted, hsorted.nodup, hmem, e, ?_, hememb, hdee, hmin⟩
  unfold get_front_month_expiry
  rw [hfind]

/-- C6 witness: the schedule for 2024-01-15 .. 2024-03-10 and the lookup
date 2024-02-20, with all hypotheses checked by `decide`. -/
theorem C6_witness :
    List.Sorted (· < ·) (generate_expiry_schedule 2024 1 15 2024 3 10) ∧
    (generate_expiry_schedule 2024 1 15 2024 3 10).Nodup ∧
    (∀ x, x ∈ generate_expiry_schedule 2024 1 15 2024 3 10 ↔
      ∃ y m, 1 ≤ m ∧ m ≤ 12 ∧ monthIdx 2024 1 ≤ monthIdx y m ∧
        toRD y m 1 ≤ toRD 2024 3 10 + 60 ∧ x = get_last_friday_of_month y m) ∧
    (∃ e, get_front_month_expiry (toRD 2024 2 20)
        (generate_expiry_schedule 2024 1 15 2024 3 10) = some e ∧
      e ∈ generate_expiry_schedule 2024 1 15 2024 3 10 ∧ toRD 2024 2 20 ≤ e ∧
      ∀ e' ∈ generate_expiry_schedule 2024 1 15 2024 3 10, toRD 2024 2 20 ≤ e' → e ≤ e') :=
  C6_expiry_schedule_and_front_month 2024 1 15 2024 3 10 (toRD 2024 2 20)
    (by decide) (by decide) (by decide) (by decide) (by decide)
